import Mathlib

/-
  Verification of the SecureFeedback user-registration service
  (ProyectoNode): a shallow embedding of the connection-pool manager
  (db.js / the getPool module with retry), the user routes
  (routes/users.js) and the server startup logic, together with
  theorems settling the specification's claims.
-/

namespace SecureFeedback

/-! ## Connection pool manager (the getPool module with retry) -/

/-- A database connection pool handle as exposed by the mssql driver:
the only observable the module reads is its `connected` flag; `id`
distinguishes distinct handles. -/
structure Pool where
  id : Nat
  connected : Bool
deriving Repr, DecidableEq

/-- An error thrown by the mssql driver (`sql.connect` rejection). -/
structure DbError where
  message : String
deriving Repr, DecidableEq

/-- The outcome of one `sql.connect(config)` call: either a fresh pool
handle or a thrown error. The environment is modelled as a function from
the attempt index to its outcome. -/
inductive ConnOutcome where
  | ok (p : Pool)
  | err (e : DbError)
deriving Repr, DecidableEq

/-- The `maxRetries` constant of getPool. -/
def maxRetries : Nat := 3

/-- The fixed delay, in milliseconds, of
`await new Promise(resolve => setTimeout(resolve, 3000))`. -/
def retryDelayMs : Nat := 3000

/-- The retry for-loop of getPool (`for (let i = 0; i < maxRetries; i++)`),
written structurally on the number of remaining iterations
(`remaining = maxRetries - i`, so the call for the whole loop is
`retryLoop connect 0 maxRetries`).  Returns the result (the returned pool
or the rethrown error), the number of `sql.connect` attempts made, and
the list of delays slept between consecutive attempts.  On a failure that
is not the last attempt (`i < maxRetries - 1`) the loop sleeps 3000 ms
and retries; on the last attempt it rethrows.  The `remaining = 0` case
is the loop falling through, which cannot happen for `maxRetries ≥ 1`. -/
def retryLoop (connect : Nat → ConnOutcome) : Nat → Nat → Except DbError Pool × Nat × List Nat
  | _, 0 => (.error { message := "retry loop exhausted" }, 0, [])
  | i, 1 =>
    match connect i with
    | .ok p => (.ok p, 1, [])
    | .err e => (.error e, 1, [])
  | i, r + 2 =>
    match connect i with
    | .ok p => (.ok p, 1, [])
    | .err _ =>
      let rest := retryLoop connect (i + 1) (r + 1)
      (rest.1, rest.2.1 + 1, retryDelayMs :: rest.2.2)

/-- Decidable equality of driver results, so that concrete pool states
can be evaluated. -/
instance : DecidableEq (Except DbError Pool) := fun a b =>
  match a, b with
  | .ok x, .ok y =>
    if h : x = y then isTrue (congrArg Except.ok h)
    else isFalse fun hc => h (Except.noConfusion hc id)
  | .ok _, .error _ => isFalse fun hc => Except.noConfusion hc
  | .error _, .ok _ => isFalse fun hc => Except.noConfusion hc
  | .error x, .error y =>
    if h : x = y then isTrue (congrArg Except.error h)
    else isFalse fun hc => h (Except.noConfusion hc id)

/-- Everything observable about one getPool call: the value returned
to the caller (or the error propagated to it), the module-level `pool`
variable after the call, the number of `sql.connect` attempts made, and
the delays slept between consecutive attempts. -/
structure GetPoolResult where
  result : Except DbError Pool
  cached : Option Pool
  attempts : Nat
  delays : List Nat
deriving Repr, DecidableEq

/-- The getPool of the retrying pool module: first the cleanup step
`if (pool && !pool.connected) pool = null`, then, when no cached pool
remains, the retry loop with `maxRetries = 3`; a cached connected pool is
returned as is with no connection attempt. -/
def getPool (connect : Nat → ConnOutcome) (cached : Option Pool) : GetPoolResult :=
  let cleaned : Option Pool :=
    match cached with
    | some p => if p.connected then some p else none
    | none => none
  match cleaned with
  | some p => { result := .ok p, cached := some p, attempts := 0, delays := [] }
  | none =>
    match retryLoop connect 0 maxRetries with
    | (.ok p, n, ds) => { result := .ok p, cached := some p, attempts := n, delays := ds }
    | (.error e, n, ds) => { result := .error e, cached := none, attempts := n, delays := ds }

/-- The earlier getPool variant of src/db.js (no disconnect check, no
retry): `if (!pool) pool = await sql.connect(config); return pool`.
Kept for comparison with the retrying module. -/
def getPoolSimple (connect : ConnOutcome) (cached : Option Pool) : Except DbError Pool × Option Pool :=
  match cached with
  | some p => (.ok p, some p)
  | none =>
    match connect with
    | .ok p => (.ok p, some p)
    | .err e => (.error e, none)

/-! ## String primitives

Executable models of the JavaScript / library string operations the
routes use, written structurally over the character list of a `String`
so that concrete inputs evaluate inside the kernel. -/

/-- Characters treated as whitespace by JavaScript's `trim` and by the
regex class `\s` (space, tab, line feed, carriage return, vertical tab,
form feed, no-break space). -/
def jsSpaceChar (c : Char) : Bool :=
  c = ' ' || c = '\t' || c = '\n' || c = '\r' ||
  c.toNat = 11 || c.toNat = 12 || c.toNat = 160

/-- JavaScript `String.prototype.trim`: strip leading and trailing
whitespace. -/
def jsTrim (s : String) : String :=
  ⟨((s.data.dropWhile jsSpaceChar).reverse.dropWhile jsSpaceChar).reverse⟩

/-- Split a character list at every occurrence of a separator. -/
def splitChar (sep : Char) : List Char → List (List Char)
  | [] => [[]]
  | c :: cs =>
    let rest := splitChar sep cs
    if c = sep then [] :: rest
    else
      match rest with
      | [] => [[c]]
      | g :: gs => (c :: g) :: gs

/-- Lowercase an ASCII letter, identity elsewhere. -/
def asciiLower (c : Char) : Char :=
  if 65 ≤ c.toNat && c.toNat ≤ 90 then Char.ofNat (c.toNat + 32) else c

/-- Lexicographic order on character lists by code point, the order a
SQL server applies when comparing the fixed-shape formatted timestamp
strings (at every position either both characters are equal punctuation
or both are digits, where collations agree with code-point order). -/
def charListLe : List Char → List Char → Bool
  | [], _ => true
  | _ :: _, [] => false
  | a :: as, b :: bs => if a = b then charListLe as bs else Nat.blt a.toNat b.toNat

/-- String comparison used by the ORDER BY on the formatted timestamp. -/
def strLe (a b : String) : Bool := charListLe a.data b.data

/-- Models the xss-filters `inHTMLData` sanitizer: HTML-encode the
characters significant in an HTML data context. -/
def htmlEncodeChars : List Char → List Char
  | [] => []
  | c :: cs =>
    (if c = '&' then "&amp;".data
     else if c = '<' then "&lt;".data
     else if c = '>' then "&gt;".data
     else [c]) ++ htmlEncodeChars cs

/-- The sanitizer applied to every stored field
(`xssFilters.inHTMLData`). -/
def inHTMLData (s : String) : String := ⟨htmlEncodeChars s.data⟩

/-! ## Validation rules (`validacionRegistro` of routes/users.js) -/

/-- The character class of the name / surname / country regex
`^[a-zA-ZáéíóúÁÉÍÓÚñÑüÜ\s]+$`. -/
def letraChar (c : Char) : Bool :=
  (97 ≤ c.toNat && c.toNat ≤ 122) || (65 ≤ c.toNat && c.toNat ≤ 90) ||
  jsSpaceChar c ||
  c = 'á' || c = 'é' || c = 'í' || c = 'ó' || c = 'ú' ||
  c = 'Á' || c = 'É' || c = 'Í' || c = 'Ó' || c = 'Ú' ||
  c = 'ñ' || c = 'Ñ' || c = 'ü' || c = 'Ü'

/-- Whether a whole string matches `^[a-zA-ZáéíóúÁÉÍÓÚñÑüÜ\s]+$`. -/
def matchesLetras (s : String) : Bool :=
  !s.data.isEmpty && s.data.all letraChar

/-- The character class of the phone regex `^[\d\s\-\+\(\)]{7,20}$`. -/
def telChar (c : Char) : Bool :=
  c.isDigit || jsSpaceChar c || c = '-' || c = '+' || c = '(' || c = ')'

/-- Whether a whole string matches `^[\d\s\-\+\(\)]{7,20}$`. -/
def matchesTelefono (s : String) : Bool :=
  7 ≤ s.data.length && s.data.length ≤ 20 && s.data.all telChar

/-- Allowed characters of the local part in the email model. -/
def emailLocalChar (c : Char) : Bool :=
  c.isAlphanum || c = '.' || c = '_' || c = '%' || c = '+' || c = '-'

/-- Allowed characters of a domain label in the email model. -/
def domainLabelChar (c : Char) : Bool := c.isAlphanum || c = '-'

/-- Models the validator.js `isEmail` check (simplified to the common
`local@label.···.tld` shape: nonempty local part of at most 64 allowed
characters, at least two nonempty domain labels, alphabetic top-level
domain of length at least two). -/
def isEmail (s : String) : Bool :=
  match splitChar '@' s.data with
  | [lp, dom] =>
    !lp.isEmpty && lp.length ≤ 64 && lp.all emailLocalChar &&
    (let labels := splitChar '.' dom
     2 ≤ labels.length && labels.all (fun l => !l.isEmpty && l.all domainLabelChar) &&
     (match labels.getLast? with
      | some tld => 2 ≤ tld.length && tld.all Char.isAlpha
      | none => false))
  | _ => false

/-- Models the validator.js `normalizeEmail` sanitizer with its default
options, which lowercase the address. -/
def normalizeEmail (s : String) : String := ⟨s.data.map asciiLower⟩

/-- The request body of `POST /api/users`: each field either absent or a
string (the JSON fields the form submits). -/
structure Body where
  nombre : Option String := none
  apellido : Option String := none
  email : Option String := none
  telefono : Option String := none
  pais : Option String := none
deriving Repr, DecidableEq

/-- Validation chain for `nombre`: trim, then length 2–100 with its
message, then the letters-and-spaces regex with its message.  A missing
field is validated as the empty string. -/
def checkNombre (v : Option String) : List String :=
  let s := jsTrim (v.getD "")
  (if 2 ≤ s.length && s.length ≤ 100 then []
   else ["El nombre debe tener entre 2 y 100 caracteres"]) ++
  (if matchesLetras s then []
   else ["El nombre solo puede contener letras y espacios"])

/-- Validation chain for `apellido`, identical to `nombre` up to the
messages. -/
def checkApellido (v : Option String) : List String :=
  let s := jsTrim (v.getD "")
  (if 2 ≤ s.length && s.length ≤ 100 then []
   else ["El apellido debe tener entre 2 y 100 caracteres"]) ++
  (if matchesLetras s then []
   else ["El apellido solo puede contener letras y espacios"])

/-- Validation chain for `email`: trim, `isEmail` with its message,
`normalizeEmail`, then the max-255 length check (on the normalized
value) with its message. -/
def checkEmail (v : Option String) : List String :=
  let s := jsTrim (v.getD "")
  (if isEmail s then [] else ["Ingrese un correo electrónico válido"]) ++
  (if (normalizeEmail s).length ≤ 255 then []
   else ["El correo no puede exceder 255 caracteres"])

/-- Validation chain for `telefono`: `optional({ checkFalsy: true })`
skips the whole chain when the field is absent or falsy (the falsy
string is the empty string); otherwise trim and match the phone regex. -/
def checkTelefono (v : Option String) : List String :=
  match v with
  | none => []
  | some s =>
    if s = "" then []
    else if matchesTelefono (jsTrim s) then []
    else ["Ingrese un número de teléfono válido"]

/-- Validation chain for `pais`: optional with `checkFalsy`, otherwise
trim, max-100 length with its message, then the letters regex with its
message. -/
def checkPais (v : Option String) : List String :=
  match v with
  | none => []
  | some s =>
    if s = "" then []
    else
      let t := jsTrim s
      (if t.length ≤ 100 then [] else ["El país no puede exceder 100 caracteres"]) ++
      (if matchesLetras t then [] else ["El país solo puede contener letras y espacios"])

/-- The full `validacionRegistro` middleware: the five chains run in
order and `errors.array().map(e => e.msg)` concatenates their failure
messages in that order. -/
def validacionRegistro (b : Body) : List String :=
  checkNombre b.nombre ++ checkApellido b.apellido ++ checkEmail b.email ++
  checkTelefono b.telefono ++ checkPais b.pais

/-! ## The usuarios table and the parameterized INSERT -/

/-- A DATETIME value of the `fecha_registro` column, at the minute
granularity the display format exposes. -/
structure FechaRegistro where
  year : Nat
  month : Nat
  day : Nat
  hour : Nat
  minute : Nat
deriving Repr, DecidableEq

/-- Chronological encoding of a DATETIME (fields are within their
calendar ranges, so the mixed-radix encoding is order-faithful). -/
def fechaNat (f : FechaRegistro) : Nat :=
  (((f.year * 100 + f.month) * 100 + f.day) * 100 + f.hour) * 100 + f.minute

/-- Strict chronological order on registration times: `a` is earlier
than `b`. -/
def fechaLt (a b : FechaRegistro) : Bool := Nat.blt (fechaNat a) (fechaNat b)

/-- A row of the `usuarios` table as created by the startup DDL:
identity id, required names and unique email, nullable phone and
country, defaulted registration timestamp. -/
structure Usuario where
  id : Nat
  nombre : String
  apellido : String
  email : String
  telefono : Option String
  pais : Option String
  fecha_registro : FechaRegistro
deriving Repr, DecidableEq

/-- An error raised by the database driver, carrying the SQL Server
error number the handler inspects (2627 unique constraint, 2601 unique
index). -/
structure SqlError where
  number : Nat
deriving Repr, DecidableEq

/-- The parameterized `INSERT INTO usuarios ... ; SELECT SCOPE_IDENTITY()
AS id` against a table state: a duplicate email violates the UNIQUE
constraint on `email` and raises error 2627 leaving the table unchanged;
otherwise the row is appended with the next identity value and that
value is returned. -/
def dbInsert (tbl : List Usuario) (nombre apellido email : String)
    (telefono pais : Option String) (fecha : FechaRegistro) :
    Except SqlError (Nat × List Usuario) :=
  if tbl.any (fun u => u.email = email) then
    .error { number := 2627 }
  else
    let newId := tbl.length + 1
    .ok (newId, tbl ++ [{ id := newId, nombre := nombre, apellido := apellido,
                          email := email, telefono := telefono, pais := pais,
                          fecha_registro := fecha }])

/-! ## POST /api/users -/

/-- The JSON responses the registration handler can produce. -/
inductive PostResponse where
  | validationError (errors : List String)
  | created (id : Nat) (nombre apellido email : String)
  | duplicateEmail
  | serverError
deriving Repr, DecidableEq

/-- The HTTP status the handler sends with each response. -/
def PostResponse.status : PostResponse → Nat
  | .validationError _ => 400
  | .created _ _ _ _ => 201
  | .duplicateEmail => 409
  | .serverError => 500

/-- The `message` field the handler sends with each response. -/
def PostResponse.mensaje : PostResponse → String
  | .validationError _ => "Error de validación"
  | .created _ _ _ _ => "Usuario registrado exitosamente"
  | .duplicateEmail => "El correo electrónico ya está registrado"
  | .serverError => "Error interno del servidor. Intente nuevamente."

/-- The sanitized `nombre` the handler computes after validation passed:
the trim sanitizer already ran, the handler trims again and applies
`inHTMLData` (line `const nombre = xssFilters.inHTMLData(req.body.nombre.trim())`). -/
def sanitizedNombre (b : Body) : String := inHTMLData (jsTrim (b.nombre.getD ""))

/-- The sanitized `apellido`, computed like `nombre`. -/
def sanitizedApellido (b : Body) : String := inHTMLData (jsTrim (b.apellido.getD ""))

/-- The sanitized `email`: at handler time `req.body.email` holds the
trimmed, normalized value the validation sanitizers left in place, and
the handler applies `inHTMLData` to it. -/
def sanitizedEmail (b : Body) : String :=
  inHTMLData (normalizeEmail (jsTrim (b.email.getD "")))

/-- The stored value of an optional field
(`req.body.telefono ? xssFilters.inHTMLData(req.body.telefono.trim()) : null`):
an absent or falsy (empty) field — which the optional validator chain
left untouched — and a field whose trimmed value is empty all store
NULL; otherwise the trimmed, sanitized string is stored. -/
def storedOptional (v : Option String) : Option String :=
  match v with
  | none => none
  | some s =>
    if s = "" then none
    else if jsTrim s = "" then none
    else some (inHTMLData (jsTrim s))

/-- Everything observable about one POST /api/users call: the response,
the table afterwards, and whether the handler reached the INSERT. -/
structure PostOutcome where
  resp : PostResponse
  table : List Usuario
  insertAttempted : Bool
deriving Repr, DecidableEq

/-- The POST /api/users handler: on validation errors respond 400 with
the message list and stop; otherwise sanitize the fields, run the
parameterized INSERT, and respond 201 with the new id and the echoed
sanitized fields, 409 when the caught error's number is 2627 or 2601,
500 otherwise. -/
def postUsers (tbl : List Usuario) (b : Body) (fecha : FechaRegistro) : PostOutcome :=
  match validacionRegistro b with
  | e :: es => { resp := .validationError (e :: es), table := tbl, insertAttempted := false }
  | [] =>
    match dbInsert tbl (sanitizedNombre b) (sanitizedApellido b) (sanitizedEmail b)
        (storedOptional b.telefono) (storedOptional b.pais) fecha with
    | .ok (id, tbl') =>
      { resp := .created id (sanitizedNombre b) (sanitizedApellido b) (sanitizedEmail b),
        table := tbl', insertAttempted := true }
    | .error e =>
      { resp := if e.number = 2627 || e.number = 2601 then .duplicateEmail else .serverError,
        table := tbl, insertAttempted := true }

/-! ## GET /api/users -/

/-- A row of the listing's result set: every column of the SELECT, with
`fecha_registro` being the alias of `FORMAT(fecha_registro,
'dd/MM/yyyy HH:mm')`, a string. -/
structure UsuarioRow where
  id : Nat
  nombre : String
  apellido : String
  email : String
  telefono : Option String
  pais : Option String
  fecha_registro : String
deriving Repr, DecidableEq

/-- A decimal digit character. -/
def digitChar (n : Nat) : Char := Char.ofNat (48 + n)

/-- Two-digit zero-padded rendering, as the format pieces `dd`, `MM`,
`HH`, `mm` produce for in-range field values. -/
def pad2 (n : Nat) : String := ⟨[digitChar (n / 10 % 10), digitChar (n % 10)]⟩

/-- Four-digit rendering of the year, as `yyyy` produces for calendar
years. -/
def pad4 (n : Nat) : String :=
  ⟨[digitChar (n / 1000 % 10), digitChar (n / 100 % 10),
    digitChar (n / 10 % 10), digitChar (n % 10)]⟩

/-- The T-SQL `FORMAT(fecha_registro, 'dd/MM/yyyy HH:mm')` expression. -/
def formatFecha (f : FechaRegistro) : String :=
  pad2 f.day ++ "/" ++ pad2 f.month ++ "/" ++ pad4 f.year ++ " " ++
  pad2 f.hour ++ ":" ++ pad2 f.minute

/-- The projection of the SELECT list: every column, with the
registration timestamp formatted for display under the alias
`fecha_registro`. -/
def projectRow (u : Usuario) : UsuarioRow :=
  { id := u.id, nombre := u.nombre, apellido := u.apellido, email := u.email,
    telefono := u.telefono, pais := u.pais,
    fecha_registro := formatFecha u.fecha_registro }

/-- Insert one row into a list kept descending by the `fecha_registro`
output column (the formatted string). -/
def insertFechaDesc (r : UsuarioRow) : List UsuarioRow → List UsuarioRow
  | [] => [r]
  | x :: xs =>
    if strLe r.fecha_registro x.fecha_registro then x :: insertFechaDesc r xs
    else r :: x :: xs

/-- Sort rows descending by the `fecha_registro` output column. -/
def sortFechaDesc : List UsuarioRow → List UsuarioRow
  | [] => []
  | r :: rs => insertFechaDesc r (sortFechaDesc rs)

/-- The listing query.  In `ORDER BY fecha_registro DESC` the name
`fecha_registro` resolves to the select-list alias — the output column
holding the `FORMAT(..., 'dd/MM/yyyy HH:mm')` string — because SQL sort
keys given as bare names refer to output columns, which take precedence
over source-table columns of the same name.  The rows are therefore
ordered by the formatted string, descending. -/
def listUsersQuery (tbl : List Usuario) : List UsuarioRow :=
  sortFechaDesc (tbl.map projectRow)

/-- The JSON body of the listing response. -/
structure ListResponse where
  success : Bool
  count : Nat
  data : List UsuarioRow
deriving Repr, DecidableEq

/-- The GET /api/users handler: run the listing query and respond with
`success`, the row count and the row set. -/
def getUsers (tbl : List Usuario) : ListResponse :=
  let rows := listUsersQuery tbl
  { success := true, count := rows.length, data := rows }

/-! ## Server startup (startServer of the main module) -/

/-- Everything observable about one startServer run: whether
`app.listen` was called, whether the database initialization (pool plus
table DDL) completed, and whether the startup error was logged. -/
structure StartResult where
  listened : Bool
  dbReady : Bool
  loggedError : Bool
deriving Repr, DecidableEq

/-- The startServer function: inside the try block it awaits `getPool()`
(the retrying acquire, starting with no cached pool), runs the
CREATE-TABLE-if-absent query (`tableQueryOk` says whether that query
succeeds) and calls `app.listen`; the catch block logs the error and
calls `app.listen` only when `NODE_ENV === 'production'`. -/
def startServer (connect : Nat → ConnOutcome) (tableQueryOk : Bool)
    (nodeEnv : Option String) : StartResult :=
  match (getPool connect none).result with
  | .ok _ =>
    if tableQueryOk then { listened := true, dbReady := true, loggedError := false }
    else { listened := nodeEnv == some "production", dbReady := false, loggedError := true }
  | .error _ =>
    { listened := nodeEnv == some "production", dbReady := false, loggedError := true }

/-! ## Concrete inputs used by the claim witnesses -/

/-- A two-row table whose insertion order is its id order: row 1
registered 2 January 2024 10:00, row 2 registered 1 February 2024 10:00
(so row 2 is the more recent). -/
def tablaC1 : List Usuario :=
  [{ id := 1, nombre := "Ana", apellido := "Lopez", email := "ana@mail.com",
     telefono := none, pais := none, fecha_registro := ⟨2024, 1, 2, 10, 0⟩ },
   { id := 2, nombre := "Luis", apellido := "Diaz", email := "luis@mail.com",
     telefono := none, pais := none, fecha_registro := ⟨2024, 2, 1, 10, 0⟩ }]

/-- A valid registration body whose email differs from the stored row
only in letter case. -/
def bodyAna : Body :=
  { nombre := some "Ana", apellido := some "Lopez", email := some "Ana@Mail.com" }

/-- A stored row holding the already-registered email. -/
def filaAna : Usuario :=
  { id := 1, nombre := "Ana", apellido := "Lopez", email := "ana@mail.com",
    telefono := none, pais := none, fecha_registro := ⟨2024, 1, 1, 9, 0⟩ }

/-- A registration body whose name contains digits. -/
def bodyMalNombre : Body :=
  { nombre := some "Juan123", apellido := some "Perez", email := some "juan@example.com" }

/-- A registration body that passes every validation rule. -/
def bodyJuan : Body :=
  { nombre := some "Juan", apellido := some "Perez", email := some "juan@example.com" }

/-! ## Claim theorems -/

/-- C1: the claim says GET /api/users returns the rows ordered by
registration time descending (most recent first).  The code orders by
the select-list alias `fecha_registro`, which holds the
`FORMAT(fecha_registro, 'dd/MM/yyyy HH:mm')` display string, so rows
sort day-first: on `tablaC1` the listing returns row 1 (registered
2 January 2024) before row 2 (registered 1 February 2024), although
row 2's registration time is strictly later — the claimed order is
violated. -/
theorem getUsers_not_ordered_by_registration_time :
    ((getUsers tablaC1).data.map fun r => (r.id, r.fecha_registro)) =
      [(1, "02/01/2024 10:00"), (2, "01/02/2024 10:00")] ∧
    fechaLt ⟨2024, 1, 2, 10, 0⟩ ⟨2024, 2, 1, 10, 0⟩ = true := by decide

/-- C2: if the cached pool handle reports itself disconnected, getPool
discards it — the call behaves exactly as a call with no cached handle —
and, when the first connection attempt yields a fresh handle, that fresh
handle (not the stale one) is returned and cached. -/
theorem getPool_discards_disconnected (connect : Nat → ConnOutcome) (p q : Pool)
    (hdis : p.connected = false) (hconn : connect 0 = .ok q) :
    getPool connect (some p) = getPool connect none ∧
    getPool connect (some p) =
      { result := .ok q, cached := some q, attempts := 1, delays := [] } := by
  constructor
  · simp [getPool, hdis]
  · simp [getPool, hdis, maxRetries, retryLoop, hconn]

/-- Witness for C2 at a concrete disconnected handle and a succeeding
connection. -/
theorem getPool_discards_disconnected_witness :
    (⟨1, false⟩ : Pool).connected = false ∧
    getPool (fun _ => .ok ⟨2, true⟩) (some ⟨1, false⟩) =
      { result := .ok ⟨2, true⟩, cached := some ⟨2, true⟩, attempts := 1, delays := [] } :=
  ⟨rfl, (getPool_discards_disconnected (fun _ => .ok ⟨2, true⟩) ⟨1, false⟩ ⟨2, true⟩ rfl rfl).2⟩

/-- C3: with no cached handle and every connection attempt failing,
getPool makes exactly 3 attempts, sleeps the fixed 3000 ms delay between
consecutive attempts (twice, between attempts 1–2 and 2–3), and
propagates the third attempt's error to the caller, leaving no cached
handle. -/
theorem getPool_exhausts_three_attempts (connect : Nat → ConnOutcome) (e0 e1 e2 : DbError)
    (h0 : connect 0 = .err e0) (h1 : connect 1 = .err e1) (h2 : connect 2 = .err e2) :
    getPool connect none =
      { result := .error e2, cached := none, attempts := 3,
        delays := [retryDelayMs, retryDelayMs] } := by
  simp [getPool, maxRetries, retryLoop, h0, h1, h2]

/-- Witness for C3 at a concretely always-failing connection. -/
theorem getPool_exhausts_three_attempts_witness :
    getPool (fun _ => .err ⟨"connect ETIMEOUT"⟩) none =
      { result := .error ⟨"connect ETIMEOUT"⟩, cached := none, attempts := 3,
        delays := [retryDelayMs, retryDelayMs] } :=
  getPool_exhausts_three_attempts _ _ _ _ rfl rfl rfl

/-- C4: when the registration body validates but its sanitized email is
already stored, the INSERT raises the unique-constraint error and the
handler responds 409 with the generic duplicate-email message, leaving
the table unchanged. -/
theorem postUsers_duplicate_email (tbl : List Usuario) (b : Body) (fecha : FechaRegistro)
    (hv : validacionRegistro b = [])
    (hdup : tbl.any (fun u => u.email = sanitizedEmail b) = true) :
    (postUsers tbl b fecha).resp = .duplicateEmail ∧
    (postUsers tbl b fecha).resp.status = 409 ∧
    (postUsers tbl b fecha).resp.mensaje = "El correo electrónico ya está registrado" ∧
    (postUsers tbl b fecha).table = tbl := by
  simp [postUsers, hv, dbInsert, hdup, PostResponse.status, PostResponse.mensaje]

/-- Witness for C4: a second registration of an already-registered email
(differing only in case, which normalizeEmail folds) yields 409 and no
new row. -/
theorem postUsers_duplicate_email_witness :
    validacionRegistro bodyAna = [] ∧
    [filaAna].any (fun u => u.email = sanitizedEmail bodyAna) = true ∧
    (postUsers [filaAna] bodyAna ⟨2024, 1, 2, 10, 0⟩).resp.status = 409 ∧
    (postUsers [filaAna] bodyAna ⟨2024, 1, 2, 10, 0⟩).table = [filaAna] := by
  refine ⟨by decide, by decide, ?_, ?_⟩
  · exact (postUsers_duplicate_email [filaAna] bodyAna ⟨2024, 1, 2, 10, 0⟩
      (by decide) (by decide)).2.1
  · exact (postUsers_duplicate_email [filaAna] bodyAna ⟨2024, 1, 2, 10, 0⟩
      (by decide) (by decide)).2.2.2

/-- C5: when validation fails, the handler responds 400 with the
structured list of validation messages, the INSERT is never reached and
the table is unchanged. -/
theorem postUsers_validation_rejects (tbl : List Usuario) (b : Body) (fecha : FechaRegistro)
    (hv : validacionRegistro b ≠ []) :
    (postUsers tbl b fecha).resp = .validationError (validacionRegistro b) ∧
    (postUsers tbl b fecha).resp.status = 400 ∧
    (postUsers tbl b fecha).insertAttempted = false ∧
    (postUsers tbl b fecha).table = tbl := by
  cases hve : validacionRegistro b with
  | nil => exact absurd hve hv
  | cons e es => simp [postUsers, hve, PostResponse.status]

/-- Witness for C5: a name containing digits fails validation, yielding
400 with no insert attempted. -/
theorem postUsers_validation_rejects_witness :
    validacionRegistro bodyMalNombre ≠ [] ∧
    (postUsers [] bodyMalNombre ⟨2024, 1, 2, 10, 0⟩).resp.status = 400 ∧
    (postUsers [] bodyMalNombre ⟨2024, 1, 2, 10, 0⟩).insertAttempted = false :=
  ⟨by decide,
   (postUsers_validation_rejects [] bodyMalNombre ⟨2024, 1, 2, 10, 0⟩ (by decide)).2.1,
   (postUsers_validation_rejects [] bodyMalNombre ⟨2024, 1, 2, 10, 0⟩ (by decide)).2.2.1⟩

/-- C6: when the body validates and the sanitized email is not yet
stored, the handler responds 201 with the server-generated identifier
and the echoed sanitized nombre, apellido and email. -/
theorem postUsers_success_created (tbl : List Usuario) (b : Body) (fecha : FechaRegistro)
    (hv : validacionRegistro b = [])
    (hnew : tbl.any (fun u => u.email = sanitizedEmail b) = false) :
    (postUsers tbl b fecha).resp =
      .created (tbl.length + 1) (sanitizedNombre b) (sanitizedApellido b) (sanitizedEmail b) ∧
    (postUsers tbl b fecha).resp.status = 201 := by
  simp [postUsers, hv, dbInsert, hnew, PostResponse.status]

/-- Witness for C6: a valid registration against the empty table yields
201 with id 1 and the echoed fields. -/
theorem postUsers_success_created_witness :
    validacionRegistro bodyJuan = [] ∧
    (postUsers [] bodyJuan ⟨2024, 1, 2, 10, 0⟩).resp =
      .created 1 "Juan" "Perez" "juan@example.com" := by
  refine ⟨by decide, ?_⟩
  exact ((postUsers_success_created [] bodyJuan ⟨2024, 1, 2, 10, 0⟩
    (by decide) (by decide)).1).trans (by decide)

/-- C7: when the startup database initialization fails (the pool cannot
be acquired, or the table DDL fails) and NODE_ENV is production, the
HTTP listener still starts. -/
theorem startServer_production_listens (connect : Nat → ConnOutcome) (tableQueryOk : Bool)
    (nodeEnv : Option String)
    (hfail : (∃ e, (getPool connect none).result = Except.error e) ∨ tableQueryOk = false)
    (henv : nodeEnv = some "production") :
    (startServer connect tableQueryOk nodeEnv).listened = true := by
  subst henv
  rcases hfail with ⟨e, he⟩ | hq
  · simp [startServer, he]
  · subst hq
    cases hres : (getPool connect none).result with
    | ok p => simp [startServer, hres]
    | error e => simp [startServer, hres]

/-- Witness for C7: every connection attempt failing, production mode,
the listener starts. -/
theorem startServer_production_listens_witness :
    (startServer (fun _ => .err ⟨"down"⟩) true (some "production")).listened = true :=
  startServer_production_listens (fun _ => .err ⟨"down"⟩) true (some "production")
    (.inl ⟨⟨"down"⟩, rfl⟩) rfl

/-- C8: getPool is idempotent on a cached connected handle: the call
returns that same handle with zero connection attempts and leaves it
cached, so a repeated call returns the same result. -/
theorem getPool_idempotent_when_connected (connect : Nat → ConnOutcome) (p : Pool)
    (hconn : p.connected = true) :
    getPool connect (some p) =
      { result := .ok p, cached := some p, attempts := 0, delays := [] } ∧
    getPool connect (getPool connect (some p)).cached = getPool connect (some p) := by
  constructor
  · simp [getPool, hconn]
  · simp [getPool, hconn]

/-- Witness for C8 at a concrete connected handle: no connection attempt
is made even though every attempt would fail. -/
theorem getPool_idempotent_when_connected_witness :
    (⟨5, true⟩ : Pool).connected = true ∧
    getPool (fun _ => .err ⟨"never tried"⟩) (some ⟨5, true⟩) =
      { result := .ok ⟨5, true⟩, cached := some ⟨5, true⟩, attempts := 0, delays := [] } :=
  ⟨rfl, (getPool_idempotent_when_connected (fun _ => .err ⟨"never tried"⟩) ⟨5, true⟩ rfl).1⟩

/-- C9: when the startup database initialization fails and NODE_ENV is
not production, the listener is never started: the catch block logs the
error and startServer returns without calling listen. -/
theorem startServer_nonproduction_no_listen (connect : Nat → ConnOutcome) (tableQueryOk : Bool)
    (nodeEnv : Option String)
    (hfail : (∃ e, (getPool connect none).result = Except.error e) ∨ tableQueryOk = false)
    (henv : nodeEnv ≠ some "production") :
    (startServer connect tableQueryOk nodeEnv).listened = false ∧
    (startServer connect tableQueryOk nodeEnv).loggedError = true := by
  have hb : (nodeEnv == some "production") = false := beq_eq_false_iff_ne.mpr henv
  rcases hfail with ⟨e, he⟩ | hq
  · simp [startServer, he, hb]
  · subst hq
    cases hres : (getPool connect none).result with
    | ok p => simp [startServer, hres, hb]
    | error e => simp [startServer, hres, hb]

/-- Witness for C9: every connection attempt failing, development mode,
no listener and the error logged. -/
theorem startServer_nonproduction_no_listen_witness :
    (startServer (fun _ => .err ⟨"down"⟩) true (some "development")).listened = false ∧
    (startServer (fun _ => .err ⟨"down"⟩) true (some "development")).loggedError = true :=
  startServer_nonproduction_no_listen (fun _ => .err ⟨"down"⟩) true (some "development")
    (.inl ⟨⟨"down"⟩, rfl⟩) (by decide)

/-- C10: a present-but-falsy optional field (the empty string) is
skipped by the optional-with-checkFalsy chains, validates with no
messages, is stored as NULL, and the whole handler behaves exactly as if
the field had been omitted — for telefono and pais alike. -/
theorem optional_falsy_like_omitted (tbl : List Usuario) (b : Body) (fecha : FechaRegistro) :
    checkTelefono (some "") = [] ∧ checkPais (some "") = [] ∧
    storedOptional (some "") = none ∧
    validacionRegistro { b with telefono := some "" } =
      validacionRegistro { b with telefono := none } ∧
    validacionRegistro { b with pais := some "" } =
      validacionRegistro { b with pais := none } ∧
    postUsers tbl { b with telefono := some "" } fecha =
      postUsers tbl { b with telefono := none } fecha ∧
    postUsers tbl { b with pais := some "" } fecha =
      postUsers tbl { b with pais := none } fecha :=
  ⟨rfl, rfl, rfl, rfl, rfl, rfl, rfl⟩

end SecureFeedback
